import Mathlib

/-
Verification development for the RTO temperature-to-demand analysis pipeline.

The numeric domain of the scripts (numpy/pandas floats) is embedded as ℚ;
IEEE special values produced by division by zero are modelled explicitly by
the `PDiv` type where a claim depends on them.  Dates are embedded by the
three attributes the core actually reads: calendar year, calendar month and
day-of-week (pandas convention, 0 = Monday).
-/

namespace NEA

/-- A day of a daily series: calendar year, month (1..12) and day of week
(0 = Monday .. 6 = Sunday, the pandas `weekday` convention). -/
structure Day where
  year : Int
  month : Nat
  dow : Nat
deriving DecidableEq

/-- Weekday indicator, `date.weekday < 5`
(RTO_climate_change_demand_impact.py line 69 and RTO_polynomial_fit.py line 45). -/
def isWeekday (d : Day) : Bool := d.dow < 5

/-- The coefficient mapping of a persisted polynomial fit, as the two
predictors receive it.  `powers` holds the entries for the keys
`temperature` (power 1) and `temperature^k` (power k ≥ 2); `constant` and
`weekday_effect` are the entries of those names (always present in a fit
written by RTO_polynomial_fit.py).  `dataRangeMin` models the nested
`data_range.min_temp_C` entry when the mapping carries one
(calculate_total_cost_pwlf.py line 27 reads it with a `.get` defaulting to
negative infinity, i.e. `none` means no lower clip). -/
structure CoefDict where
  constant : ℚ
  weekday_effect : ℚ
  powers : List (Nat × ℚ)
  dataRangeMin : Option ℚ
deriving DecidableEq

/-- Dictionary lookup of the coefficient for `temperature^k`; `none` models a
missing key (Python `KeyError` on subscript, `in` test for membership). -/
def lookupC (c : CoefDict) (k : Nat) : Option ℚ :=
  (c.powers.find? (fun p => p.1 == k)).map (fun p => p.2)

/-- The lower clip of calculate_total_cost_pwlf.predict_demand lines 27-30:
`temp = max(temp, coefficients.get('data_range', {}).get('min_temp_C', float('-inf')))`.
With the key absent the bound is -inf, so the value passes unchanged. -/
def cost_clip (c : CoefDict) (t : ℚ) : ℚ :=
  match c.dataRangeMin with
  | some m => max t m
  | none => t

/-- The polynomial accumulation of calculate_total_cost_pwlf.predict_demand
lines 35-39: terms for powers 1..d, each fetched by subscript, so a missing
key aborts the whole computation (`none`, the Python KeyError). -/
def polyTerms (c : CoefDict) (t : ℚ) : Nat → Option ℚ
  | 0 => some 0
  | Nat.succ k =>
    match polyTerms c t k, lookupC c (k + 1) with
    | some s, some a => some (s + a * t ^ (k + 1))
    | _, _ => none

/-- Scalar demand predictor, calculate_total_cost_pwlf.predict_demand
lines 24-41: clip below by `data_range.min_temp_C`, accumulate constant,
polynomial terms and the weekday effect, then `max(0, demand)`. -/
def predict_demand_pwlf (c : CoefDict) (temp : ℚ) (w : Bool) (d : Nat) : Option ℚ :=
  match polyTerms c (cost_clip c temp) d with
  | some s => some (max 0 (c.constant + s + (if w then c.weekday_effect else 0)))
  | none => none

/-- The polynomial accumulation of RTO_climate_change_demand_impact.predict_demand
lines 81-84: each power's term is added only `if coef_key in coefficients`,
so a missing key is silently skipped (contributes nothing). -/
def skipSum (c : CoefDict) (t : ℚ) : Nat → ℚ
  | 0 => 0
  | Nat.succ k =>
    skipSum c t k +
      (match lookupC c (k + 1) with
       | some a => a * t ^ (k + 1)
       | none => 0)

/-- One element of the vectorized predictor,
RTO_climate_change_demand_impact.predict_demand lines 73-89: constant plus
present polynomial terms plus `weekday_effect * category`; note there is no
non-negativity clamp in this function. -/
def predict_demand_rto_elem (c : CoefDict) (t : ℚ) (w : Bool) (d : Nat) : ℚ :=
  c.constant + skipSum c t d + c.weekday_effect * (if w then 1 else 0)

/-- Vectorized demand predictor over aligned temperature and date sequences
(RTO_climate_change_demand_impact.predict_demand applied elementwise through
the pandas column arithmetic of lines 75-89). -/
def predict_demand_rto (c : CoefDict) (d : Nat) (temps : List ℚ) (days : List Day) : List ℚ :=
  List.zipWith (fun t dy => predict_demand_rto_elem c t (isWeekday dy) d) temps days

/-- The formula of the specification, spelled independently of the two code
paths: `constant + sum of coef_k * t^k for k = 1..d + weekday_effect * w`,
an absent coefficient counting as zero. -/
def coefAt (c : CoefDict) (k : Nat) : ℚ := (lookupC c k).getD 0

/-- Specification-side polynomial sum for powers 1..d. -/
def specPoly (c : CoefDict) (t : ℚ) : Nat → ℚ
  | 0 => 0
  | Nat.succ k => specPoly c t k + coefAt c (k + 1) * t ^ (k + 1)

/-- Elementwise clip of RTO_climate_change_demand_impact.clip_temperatures
lines 36-58.  The source sets the below-minimum positions first and the
above-maximum positions second (both masks taken on the original array), so
when both masks hit, the maximum wins. -/
def clipElem (minT maxT t : ℚ) : ℚ :=
  if maxT < t then maxT else if t < minT then minT else t

/-- RTO_climate_change_demand_impact.clip_temperatures lines 24-58: the
clipped array along with the reported counts of values below the minimum and
above the maximum (the two warning counters `num_below`, `num_above`). -/
def clip_report (temps : List ℚ) (minT maxT : ℚ) : List ℚ × Nat × Nat :=
  (temps.map (clipElem minT maxT),
   (temps.filter (fun t => decide (t < minT))).length,
   (temps.filter (fun t => decide (maxT < t))).length)

/-- The clipped array returned by clip_temperatures. -/
def clip_temperatures (temps : List ℚ) (minT maxT : ℚ) : List ℚ :=
  (clip_report temps minT maxT).1

/-- A piecewise-linear price curve artifact: breakpoints, slopes and
intercepts (calculate_total_cost_pwlf.py lines 45-47). -/
structure PwlfParams where
  breakpoints : List ℚ
  slopes : List ℚ
  intercepts : List ℚ
deriving DecidableEq

/-- The segment scan of calculate_total_cost_pwlf.get_price lines 58-60:
first index i with `breakpoints[i] <= demand <= breakpoints[i + 1]`. -/
def findSeg (bp : List ℚ) (x : ℚ) : Option Nat :=
  (List.range (bp.length - 1)).find?
    (fun i => decide (bp.getD i 0 ≤ x) && decide (x ≤ bp.getD (i + 1) 0))

/-- calculate_total_cost_pwlf.get_price lines 43-63.  Below the first
breakpoint: first segment extrapolation clamped at 0; above the last:
last segment extrapolation, unclamped; otherwise the scanned segment; the
final `return 0` fallback is kept as written.  `none` models the IndexError
a subscript on an empty array would raise. -/
def get_price (p : PwlfParams) (x : ℚ) : Option ℚ :=
  match p.breakpoints.head?, p.breakpoints.getLast? with
  | some b0, some bl =>
    if x < b0 then
      match p.slopes.head?, p.intercepts.head? with
      | some s0, some i0 => some (max 0 (s0 * x + i0))
      | _, _ => none
    else if bl < x then
      match p.slopes.getLast?, p.intercepts.getLast? with
      | some s1, some i1 => some (s1 * x + i1)
      | _, _ => none
    else
      match findSeg p.breakpoints x with
      | some i =>
        match p.slopes.get? i, p.intercepts.get? i with
        | some s, some ic => some (s * x + ic)
        | _, _ => none
      | none => some 0
  | _, _ => none

/-- One aligned daily sample handed to the curve fitter: the temperature and
demand values, each possibly missing (NaN in the source). -/
structure Sample where
  temp : Option ℚ
  demand : Option ℚ
deriving DecidableEq

/-- Configured per-region demand bounds (RTO_polynomial_fit.py lines 110-120
applies `>= 40` for PJM and `<= 80` for ERCOT; other regions have none). -/
structure Bounds where
  minD : Option ℚ
  maxD : Option ℚ
deriving DecidableEq

/-- RTO_polynomial_fit.fit_zone lines 100-120: a sample survives the filters
when temperature and demand are present, demand is strictly positive, and
demand respects the region's configured bounds. -/
def validSample (b : Bounds) (s : Sample) : Bool :=
  match s.temp, s.demand with
  | some _, some dm =>
    decide (0 < dm) &&
    (match b.minD with | some lo => decide (lo ≤ dm) | none => true) &&
    (match b.maxD with | some hi => decide (dm ≤ hi) | none => true)
  | _, _ => false

/-- The two data-quality errors fit_zone raises before fitting:
`No common dates ...` (line 95) and `Insufficient data ...` (line 123). -/
inductive FitError where
  | noCommonDates
  | insufficientData
deriving DecidableEq

/-- The data-validation stage of RTO_polynomial_fit.fit_zone lines 93-125:
raise on an empty alignment, filter the samples, raise when fewer than 30
survive, otherwise proceed to the fit with that many samples. -/
def fit_zone_check (b : Bounds) (samples : List Sample) : Except FitError Nat :=
  if samples.isEmpty then Except.error FitError.noCommonDates
  else
    let valid := samples.filter (validSample b)
    if valid.length < 30 then Except.error FitError.insufficientData
    else Except.ok valid.length

/-- Mean of a list of values; `none` models the NaN pandas returns for the
mean of an empty selection. -/
def listMean (xs : List ℚ) : Option ℚ :=
  if xs.isEmpty then none else some (xs.sum / (xs.length : ℚ))

/-- Values of a daily series falling in the given calendar (year, month). -/
def monthVals (s : List (Day × ℚ)) (y : Int) (m : Nat) : List ℚ :=
  (s.filter (fun p => decide (p.1.year = y) && decide (p.1.month = m))).map (fun p => p.2)

/-- The monthly aggregation of RTO_climate_change_demand_impact.analyze_rto
lines 152-158: per (year, month) means (`resample('ME').mean()`) averaged
across the years having data for that month (`groupby(month).mean()`, which
skips the NaN entries of empty months). -/
def monthAcross (s : List (Day × ℚ)) (m : Nat) : Option ℚ :=
  listMean (((s.map (fun p => p.1.year)).dedup).filterMap (fun y => listMean (monthVals s y m)))

/-- The per-day prediction step of analyze_rto lines 144-152: clip each
temperature into [min_temp, 50] (line 101 fixes `max_temp = 50`) and apply
the vectorized predictor with that day's weekday flag. -/
def predictSeries (c : CoefDict) (d : Nat) (minT : ℚ) (s : List (Day × ℚ)) : List (Day × ℚ) :=
  s.map (fun p => (p.1, predict_demand_rto_elem c (clipElem minT 50 p.2) (isWeekday p.1) d))

/-- The monthly demand figure a period's temperature series produces in
analyze_rto (predict, resample monthly, average across years). -/
def periodMonthly (c : CoefDict) (d : Nat) (minT : ℚ) (s : List (Day × ℚ)) (m : Nat) : Option ℚ :=
  monthAcross (predictSeries c d minT s) m

/-- Result of a floating-point division chain: a finite value, one of the
two infinities, or NaN. -/
inductive PDiv where
  | val (q : ℚ)
  | posInf
  | negInf
  | nan
deriving DecidableEq

/-- Round to the nearest integer, ties to even (numpy/pandas rounding). -/
def roundHalfEven (q : ℚ) : Int :=
  let f := Int.floor q
  let r := q - (f : ℚ)
  if r < 1 / 2 then f
  else if 1 / 2 < r then f + 1
  else if f % 2 = 0 then f else f + 1

/-- The `.round(1)` of RTO_climate_change_demand_impact.main line 288;
rounding leaves infinities and NaN unchanged. -/
def round1 : PDiv → PDiv
  | PDiv.val q => PDiv.val ((roundHalfEven (q * 10) : ℚ) / 10)
  | x => x

/-- The percent-change arithmetic `(recent - base) / base * 100` of
RTO_climate_change_demand_impact.main line 288, with IEEE division by a
(positive) zero made explicit: NaN when the numerator is also zero,
a signed infinity otherwise. -/
def pctChange (base recent : ℚ) : PDiv :=
  if base = 0 then
    (if recent = 0 then PDiv.nan else if 0 < recent then PDiv.posInf else PDiv.negInf)
  else PDiv.val ((recent - base) / base * 100)

/-- Percent change followed by the `.round(1)` of line 288. -/
def pctRound (base recent : ℚ) : PDiv := round1 (pctChange base recent)

/-- The twelve calendar months of the report. -/
def monthsList : List Nat := [1, 2, 3, 4, 5, 6, 7, 8, 9, 10, 11, 12]

/-- A month's absolute change `demand_recent - demand_historical`
(analyze_rto line 175); NaN (`none`) when either side lacks the month. -/
def monthlyChange (hist recent : Nat → Option ℚ) (m : Nat) : Option ℚ :=
  match hist m, recent m with
  | some h, some r => some (r - h)
  | _, _ => none

/-- The annual absolute change of main lines 249-250: the mean of the
monthly changes (pandas mean skipping NaN months). -/
def annualChange (hist recent : Nat → Option ℚ) : Option ℚ :=
  listMean (monthsList.filterMap (monthlyChange hist recent))

/-- A month's percent change as persisted by main line 288. -/
def monthlyPct (hist recent : Nat → Option ℚ) (m : Nat) : Option PDiv :=
  match hist m, recent m with
  | some h, some r => some (pctRound h r)
  | _, _ => none

/-- The `Annual` column of the baseline/current tables, main lines 281-285:
mean of the monthly figures present. -/
def annualOf (f : Nat → Option ℚ) : Option ℚ :=
  listMean (monthsList.filterMap f)

/-- The `Annual` entry of the percent-change table (line 288 applied to the
two `Annual` columns). -/
def annualPct (hist recent : Nat → Option ℚ) : Option PDiv :=
  match annualOf hist, annualOf recent with
  | some h, some r => some (pctRound h r)
  | _, _ => none

/-- One region of the fitting batch, RTO_polynomial_fit.main lines 275-298:
whether its demand and temperature files exist, and the outcome fit_zone
would produce for the pair. -/
structure FitRegion where
  name : String
  demandFileExists : Bool
  tempFileExists : Bool
  fitOutcome : Except String Unit

/-- The JSON document RTO_polynomial_fit.main lines 300-312 persists:
fit payloads (their number here), error messages, and the metadata counts. -/
structure FitOutput where
  nFits : Nat
  errors : List String
  nTotal : Nat
  nSuccessful : Nat
  nFailed : Nat
deriving DecidableEq

/-- The per-region loop of RTO_polynomial_fit.main lines 275-298.  The
existence checks of lines 285-288 sit outside the try block, so a missing
file raises out of the loop; only fit_zone failures are caught and
recorded. -/
def fitLoop : List FitRegion → Nat × List String → Except String (Nat × List String)
  | [], acc => Except.ok acc
  | r :: rs, (k, errs) =>
    if r.demandFileExists then
      if r.tempFileExists then
        match r.fitOutcome with
        | Except.ok _ => fitLoop rs (k + 1, errs)
        | Except.error e =>
          fitLoop rs (k, errs ++ ["Error fitting model for " ++ r.name ++ ": " ++ e])
      else Except.error ("Temperature file does not exist: " ++ r.name)
    else Except.error ("Demand file does not exist: " ++ r.name)

/-- RTO_polynomial_fit.main lines 270-312: run the loop, then persist fits,
errors and the total/successful/failed counts (the output is written
whatever the counts are; an escaped exception aborts before writing). -/
def fitMain (rs : List FitRegion) : Except String FitOutput :=
  match fitLoop rs (0, []) with
  | Except.error e => Except.error e
  | Except.ok (k, errs) => Except.ok ⟨k, errs, rs.length, k, errs.length⟩

/-- One region of the analysis batch,
RTO_climate_change_demand_impact.main lines 217-256: whether a matching fit
exists, whether its temperature file exists, and the outcome analyze_rto
would produce. -/
structure ClimateRegion where
  name : String
  hasFit : Bool
  tempFileExists : Bool
  analysisOutcome : Except String Unit

/-- The per-region loop of RTO_climate_change_demand_impact.main lines
217-256: every failure (missing fit, missing temperature file, analysis
error) is recorded as a message and the loop continues. -/
def climateLoop : List ClimateRegion → List String × List String → List String × List String
  | [], acc => acc
  | r :: rs, (succ, errs) =>
    if r.hasFit then
      if r.tempFileExists then
        match r.analysisOutcome with
        | Except.ok _ => climateLoop rs (succ ++ [r.name], errs)
        | Except.error e =>
          climateLoop rs (succ, errs ++ ["Error analyzing RTO " ++ r.name ++ ": " ++ e])
      else climateLoop rs (succ, errs ++ ["Temperature file not found: " ++ r.name])
    else climateLoop rs (succ, errs ++ ["No polynomial fit found for RTO " ++ r.name])

/-- The JSON document RTO_climate_change_demand_impact.main lines 297-312
persists: region list and a metadata block holding only the year and the
degree — no success/failure counts and no error messages. -/
structure ClimateOutput where
  rtos : List String
  metadataYear : Int
  metadataDegree : Nat
deriving DecidableEq

/-- RTO_climate_change_demand_impact.main lines 217-312: run the loop,
`sys.exit(1)` (the error case) when no region succeeded, otherwise persist
the results document. -/
def climateMain (year : Int) (deg : Nat) (rs : List ClimateRegion) : Except Unit ClimateOutput :=
  let res := climateLoop rs ([], [])
  if res.1.isEmpty then Except.error () else Except.ok ⟨res.1, year, deg⟩

/-- Concrete example inputs used by witnesses and counterexamples. -/
def dW : Day := ⟨2000, 1, 0⟩

def cW1 : CoefDict := ⟨3, 1, [(1, 2)], none⟩

def cNeg : CoefDict := ⟨-5, 0, [(1, 0)], none⟩

def cMiss : CoefDict := ⟨7, 0, [], none⟩

def cdC3 : CoefDict := ⟨0, 0, [(1, 1)], some 0⟩

def bNone : Bounds := ⟨none, none⟩

def sampleOK : Sample := ⟨some 20, some 50⟩

def histZeroEx : Nat → Option ℚ := fun _ => some 0

def recFiveEx : Nat → Option ℚ := fun _ => some 5

def recNegEx : Nat → Option ℚ := fun _ => some (-3)

lemma skipSum_eq_specPoly (c : CoefDict) (t : ℚ) : ∀ d, skipSum c t d = specPoly c t d
  | 0 => rfl
  | Nat.succ k => by
    unfold skipSum specPoly
    rw [skipSum_eq_specPoly c t k]
    cases h : lookupC c (k + 1) with
    | some a => simp [coefAt, h]
    | none => simp [coefAt, h]

lemma polyTerms_eq_specPoly (c : CoefDict) (t : ℚ) :
    ∀ d, (∀ k, 1 ≤ k → k ≤ d → (lookupC c k).isSome) →
      polyTerms c t d = some (specPoly c t d)
  | 0, _ => rfl
  | Nat.succ n, h => by
    have hn := polyTerms_eq_specPoly c t n (fun k h1 h2 => h k h1 (Nat.le_succ_of_le h2))
    obtain ⟨a, ha⟩ :=
      Option.isSome_iff_exists.mp (h (n + 1) (Nat.succ_le_succ (Nat.zero_le n)) (le_refl _))
    unfold polyTerms specPoly
    rw [hn, ha]
    simp [coefAt, ha]

lemma polyTerms_none (c : CoefDict) (t : ℚ) :
    ∀ d k, 1 ≤ k → k ≤ d → lookupC c k = none → polyTerms c t d = none
  | 0, k, h1, h2, _ => absurd (h1.trans h2) (by omega)
  | Nat.succ n, k, h1, h2, hk => by
    unfold polyTerms
    rcases Nat.lt_succ_iff_lt_or_eq.mp (Nat.lt_succ_of_le h2) with h | h
    · rw [polyTerms_none c t n k h1 (Nat.lt_succ_iff.mp h) hk]
    · subst h
      simp only [Nat.succ_eq_add_one] at hk
      rw [hk]
      cases polyTerms c t n <;> rfl

lemma cost_clip_of_clipped (c : CoefDict) (t : ℚ)
    (h : ∀ m, c.dataRangeMin = some m → m ≤ t) : cost_clip c t = t := by
  unfold cost_clip
  cases hm : c.dataRangeMin with
  | none => rfl
  | some m => exact max_eq_left (h m hm)

lemma clipElem_mem {minT maxT : ℚ} (h : minT ≤ maxT) (t : ℚ) :
    minT ≤ clipElem minT maxT t ∧ clipElem minT maxT t ≤ maxT := by
  unfold clipElem
  split_ifs with h1 h2 <;> constructor <;> linarith

lemma clipElem_idem {minT maxT : ℚ} (h : minT ≤ maxT) (t : ℚ) :
    clipElem minT maxT (clipElem minT maxT t) = clipElem minT maxT t := by
  have hm := clipElem_mem h t
  set u := clipElem minT maxT t with hu
  unfold clipElem
  rw [if_neg (not_lt.mpr hm.2), if_neg (not_lt.mpr hm.1)]

/-- C8: the Temperature Range Guard is idempotent and a second application
reports zero values clipped on each side, for any range with
min_temp ≤ max_temp. -/
theorem c8_clip_idempotent : ∀ (temps : List ℚ) (minT maxT : ℚ), minT ≤ maxT →
    clip_report ((clip_report temps minT maxT).1) minT maxT
      = ((clip_report temps minT maxT).1, 0, 0) := by
  intro temps minT maxT h
  have h1 : List.map (clipElem minT maxT) (List.map (clipElem minT maxT) temps)
      = List.map (clipElem minT maxT) temps := by
    rw [List.map_map]
    exact List.map_congr_left (fun a _ => clipElem_idem h a)
  have h2 : List.filter (fun t => decide (t < minT)) (List.map (clipElem minT maxT) temps)
      = [] := by
    rw [List.filter_eq_nil_iff]
    intro a ha
    obtain ⟨t, _, rfl⟩ := List.mem_map.mp ha
    simpa using not_lt.mpr (clipElem_mem h t).1
  have h3 : List.filter (fun t => decide (maxT < t)) (List.map (clipElem minT maxT) temps)
      = [] := by
    rw [List.filter_eq_nil_iff]
    intro a ha
    obtain ⟨t, _, rfl⟩ := List.mem_map.mp ha
    simpa using not_lt.mpr (clipElem_mem h t).2
  simp only [clip_report, h1, h2, h3, List.length_nil]

/-- C8 witness: idempotence at a concrete series and range. -/
theorem c8_witness :
    clip_report ((clip_report [(60 : ℚ), -10, 20] 0 50).1) 0 50
      = ((clip_report [(60 : ℚ), -10, 20] 0 50).1, 0, 0) :=
  c8_clip_idempotent [(60 : ℚ), -10, 20] 0 50 (by norm_num)

/-- C3 (amended): the Period Aggregator path clips every temperature into
[min_temp_C, 50] (below min ↦ min, above 50 ↦ 50), while the Cost Estimator
path applies only the lower bound: the value it feeds to the polynomial is
never smaller than the raw temperature, so values above 50 °C pass
unchanged. -/
theorem c3_clipping_paths :
    (∀ minT : ℚ, minT ≤ 50 → ∀ t : ℚ,
        minT ≤ clipElem minT 50 t ∧ clipElem minT 50 t ≤ 50 ∧
        (t < minT → clipElem minT 50 t = minT) ∧ (50 < t → clipElem minT 50 t = 50)) ∧
    (∀ (c : CoefDict) (t : ℚ), t ≤ cost_clip c t) := by
  constructor
  · intro minT h t
    have hm := clipElem_mem h t
    refine ⟨hm.1, hm.2, ?_, ?_⟩
    · intro hlt
      unfold clipElem
      rw [if_neg (by linarith), if_pos hlt]
    · intro hgt
      unfold clipElem
      rw [if_pos hgt]
  · intro c t
    unfold cost_clip
    cases c.dataRangeMin with
    | none => exact le_refl t
    | some m => exact le_max_left t m

/-- C3 witness: at min_temp 0 the period path maps 60 °C to 50 °C and the
clipped value lies in [0, 50]. -/
theorem c3_witness :
    (0 : ℚ) ≤ clipElem 0 50 60 ∧ clipElem 0 50 60 ≤ 50 ∧
    ((60 : ℚ) < 0 → clipElem 0 50 60 = 0) ∧ ((50 : ℚ) < 60 → clipElem 0 50 60 = 50) :=
  c3_clipping_paths.1 0 (by norm_num) 60

/-- C3 counterexample: in the Cost Estimator path a raw temperature of 60 °C
is fed to the polynomial as 60, not clipped to the 50 °C ceiling (the
prediction equals the polynomial evaluated at 60). -/
theorem c3_counterexample :
    cost_clip cdC3 60 = 60 ∧ predict_demand_pwlf cdC3 60 false 1 = some 60 ∧
      ¬ ((60 : ℚ) ≤ 50) := by
  refine ⟨by norm_num [cost_clip, cdC3], ?_, by norm_num⟩
  norm_num [predict_demand_pwlf, polyTerms, lookupC, cost_clip, cdC3]

/-- C1 (amended): given an already range-clipped temperature and a full set
of coefficient keys 1..d, the scalar predictor returns
max(0, constant + Σ coef_k·t^k + weekday_effect·w); the vectorized
predictor returns, element-wise with each date's weekday flag, the same sum
but without the non-negativity clamp. -/
theorem c1_predictor_formula :
    (∀ (c : CoefDict) (t : ℚ) (w : Bool) (d : Nat),
        (∀ k, 1 ≤ k → k ≤ d → (lookupC c k).isSome) →
        (∀ m, c.dataRangeMin = some m → m ≤ t) →
        predict_demand_pwlf c t w d
          = some (max 0 (c.constant + specPoly c t d
              + c.weekday_effect * (if w then 1 else 0)))) ∧
    (∀ (c : CoefDict) (d : Nat) (temps : List ℚ) (days : List Day),
        predict_demand_rto c d temps days
          = List.zipWith
              (fun t dy => c.constant + specPoly c t d
                + c.weekday_effect * (if isWeekday dy then 1 else 0)) temps days) := by
  constructor
  · intro c t w d h1 h2
    unfold predict_demand_pwlf
    rw [cost_clip_of_clipped c t h2, polyTerms_eq_specPoly c t d h1]
    cases w <;> simp
  · intro c d temps days
    unfold predict_demand_rto
    congr 1
    funext t dy
    unfold predict_demand_rto_elem
    rw [skipSum_eq_specPoly]

/-- C1 witness: the scalar predictor at a degree-1 fit with constant 3,
temperature coefficient 2, weekday effect 1 and temperature 5 returns
max(0, 3 + 2·5 + 1) = 14. -/
theorem c1_witness : predict_demand_pwlf cW1 5 true 1 = some 14 := by
  have hk : ∀ k, 1 ≤ k → k ≤ 1 → (lookupC cW1 k).isSome := by
    intro k hk1 hk2
    have hk : k = 1 := le_antisymm hk2 hk1
    subst hk
    decide
  have hm : ∀ m : ℚ, cW1.dataRangeMin = some m → m ≤ 5 := by
    intro m hm
    simp [cW1] at hm
  rw [c1_predictor_formula.1 cW1 5 true 1 hk hm]
  norm_num [cW1, specPoly, coefAt, lookupC]

/-- C1 counterexample: for a degree-1 fit with constant −5, temperature
coefficient 0 and weekday effect 0 (all keys present), the vectorized
predictor returns −5 for a weekday at 0 °C, whereas the claimed clamped
value max(0, −5) is 0. -/
theorem c1_counterexample :
    predict_demand_rto cNeg 1 [0] [dW] = [-5] ∧
    max (0 : ℚ) (cNeg.constant + specPoly cNeg 0 1 + cNeg.weekday_effect * 1) = 0 ∧
    ((-5 : ℚ) ≠ 0) := by
  refine ⟨?_, ?_, by norm_num⟩
  · norm_num [predict_demand_rto, predict_demand_rto_elem, skipSum, lookupC, cNeg, isWeekday, dW]
  · norm_num [cNeg, specPoly, coefAt, lookupC]

/-- C5 (amended): when a required coefficient key among powers 1..d is
absent, the scalar predictor fails (the subscript raises), but the
vectorized predictor does not fail: it always computes
constant + Σ coef_k·t^k + weekday_effect·w with the absent coefficients
counting as zero. -/
theorem c5_missing_key :
    (∀ (c : CoefDict) (t : ℚ) (w : Bool) (d k : Nat),
        1 ≤ k → k ≤ d → lookupC c k = none → predict_demand_pwlf c t w d = none) ∧
    (∀ (c : CoefDict) (t : ℚ) (w : Bool) (d : Nat),
        predict_demand_rto_elem c t w d
          = c.constant + specPoly c t d + c.weekday_effect * (if w then 1 else 0)) := by
  constructor
  · intro c t w d k h1 h2 hk
    unfold predict_demand_pwlf
    rw [polyTerms_none c (cost_clip c t) d k h1 h2 hk]
  · intro c t w d
    unfold predict_demand_rto_elem
    rw [skipSum_eq_specPoly]

/-- C5 witness: with the key `temperature` absent and degree 1, the scalar
predictor fails. -/
theorem c5_witness : predict_demand_pwlf cMiss 3 true 1 = none :=
  c5_missing_key.1 cMiss 3 true 1 1 (le_refl 1) (le_refl 1) rfl

/-- C5 counterexample: with the key `temperature` absent and degree 1, the
vectorized predictor does not fail — it returns the constant 7 computed from
the remaining coefficients. -/
theorem c5_counterexample :
    lookupC cMiss 1 = none ∧ predict_demand_rto cMiss 1 [3] [dW] = [7] := by
  refine ⟨rfl, ?_⟩
  norm_num [predict_demand_rto, predict_demand_rto_elem, skipSum, lookupC, cMiss, isWeekday, dW]

/-- C4: the Curve Fitter raises InsufficientDataError exactly when fewer
than 30 valid samples remain after the filters (given a non-empty
alignment, the earlier no-common-dates error not firing); in particular 29
valid samples raise and 30 proceed. -/
theorem c4_insufficient_data :
    (∀ (b : Bounds) (s : List Sample), s ≠ [] →
        (fit_zone_check b s = Except.error FitError.insufficientData ↔
          (s.filter (validSample b)).length < 30)) ∧
    fit_zone_check bNone (List.replicate 29 sampleOK) = Except.error FitError.insufficientData ∧
    fit_zone_check bNone (List.replicate 30 sampleOK) = Except.ok 30 := by
  refine ⟨?_, rfl, rfl⟩
  intro b s hs
  have he : s.isEmpty = false := by
    cases s with
    | nil => exact absurd rfl hs
    | cons a t => rfl
  show (if s.isEmpty = true then Except.error FitError.noCommonDates
      else if (s.filter (validSample b)).length < 30 then Except.error FitError.insufficientData
      else Except.ok (s.filter (validSample b)).length)
      = Except.error FitError.insufficientData ↔ (s.filter (validSample b)).length < 30
  rw [he, if_neg (by decide)]
  split_ifs with h <;> simp [h]

/-- C4 witness: 28 valid samples raise InsufficientDataError. -/
theorem c4_witness :
    fit_zone_check bNone (List.replicate 28 sampleOK) = Except.error FitError.insufficientData :=
  (c4_insufficient_data.1 bNone (List.replicate 28 sampleOK) (by decide)).mpr (by decide)

/-- C7 (amended): when a month's baseline mean is zero the reported percent
change is NaN if the recent mean is also zero, and a signed infinity
otherwise (positive for a positive recent mean, negative for a negative
one) — never the number zero and never an explicit undefined report. -/
theorem c7_zero_baseline :
    ∀ (hist recent : Nat → Option ℚ) (m : Nat) (r : ℚ),
      hist m = some 0 → recent m = some r →
      monthlyPct hist recent m
        = some (if r = 0 then PDiv.nan else if 0 < r then PDiv.posInf else PDiv.negInf) := by
  intro hist recent m r hh hr
  simp only [monthlyPct, hh, hr]
  unfold pctRound pctChange
  rw [if_pos rfl]
  split_ifs with h1 h2 <;> rfl

/-- C7 witness: zero baseline and recent mean −3 report −∞. -/
theorem c7_witness : monthlyPct histZeroEx recNegEx 2 = some PDiv.negInf := by
  have h := c7_zero_baseline histZeroEx recNegEx 2 (-3) rfl rfl
  rw [h, if_neg (by norm_num), if_neg (by norm_num)]

/-- C7 counterexample: with baseline mean 0 and recent mean 5 the persisted
percent change is +∞ — an infinite value, not an explicit undefined
report. -/
theorem c7_counterexample :
    monthlyPct histZeroEx recFiveEx 1 = some PDiv.posInf ∧ PDiv.posInf ≠ PDiv.val 0 := by
  refine ⟨rfl, by decide⟩

def exFitRegions : List FitRegion := [⟨"a", true, true, Except.error "boom"⟩]

def exClimateRegions : List ClimateRegion :=
  [⟨"CAISO", true, true, Except.ok ()⟩, ⟨"ERCOT", true, false, Except.ok ()⟩]

def cxFitRegions : List FitRegion :=
  [⟨"caiso", false, true, Except.ok ()⟩, ⟨"ercot", true, true, Except.ok ()⟩]

def pEx : PwlfParams := ⟨[10, 50], [1, 2], [0, -40]⟩

lemma fitLoop_ok : ∀ (rs : List FitRegion) (k : Nat) (errs : List String),
    (∀ r ∈ rs, r.demandFileExists = true ∧ r.tempFileExists = true) →
    ∃ a es, fitLoop rs (k, errs) = Except.ok (k + a, errs ++ es) ∧ a + es.length = rs.length
  | [], k, errs, _ => ⟨0, [], by simp [fitLoop], by simp⟩
  | r :: rs, k, errs, h => by
    have hr := h r (List.mem_cons_self r rs)
    have htail := fun r' hr' => h r' (List.mem_cons_of_mem r hr')
    cases hfit : r.fitOutcome with
    | ok u =>
      obtain ⟨a, es, heq, hlen⟩ := fitLoop_ok rs (k + 1) errs htail
      refine ⟨a + 1, es, ?_, ?_⟩
      · simp only [fitLoop, hr.1, hr.2, hfit, if_true]
        rw [heq, show k + 1 + a = k + (a + 1) from by omega]
      · simp only [List.length_cons]
        omega
    | error e =>
      obtain ⟨a, es, heq, hlen⟩ :=
        fitLoop_ok rs k (errs ++ ["Error fitting model for " ++ r.name ++ ": " ++ e]) htail
      refine ⟨a, ("Error fitting model for " ++ r.name ++ ": " ++ e) :: es, ?_, ?_⟩
      · simp only [fitLoop, hr.1, hr.2, hfit, if_true]
        rw [heq, List.append_assoc]
        rfl
      · simp only [List.length_cons]
        omega

lemma climateLoop_len : ∀ (rs : List ClimateRegion) (succ errs : List String),
    (climateLoop rs (succ, errs)).1.length + (climateLoop rs (succ, errs)).2.length
      = succ.length + errs.length + rs.length
  | [], succ, errs => by simp [climateLoop]
  | r :: rs, succ, errs => by
    unfold climateLoop
    split_ifs with h1 h2
    · cases ho : r.analysisOutcome with
      | ok u =>
        rw [climateLoop_len rs (succ ++ [r.name]) errs]
        simp only [List.length_append, List.length_cons, List.length_nil]
        omega
      | error e =>
        rw [climateLoop_len rs succ (errs ++ ["Error analyzing RTO " ++ r.name ++ ": " ++ e])]
        simp only [List.length_append, List.length_cons, List.length_nil]
        omega
    · rw [climateLoop_len rs succ (errs ++ ["Temperature file not found: " ++ r.name])]
      simp only [List.length_append, List.length_cons, List.length_nil]
      omega
    · rw [climateLoop_len rs succ (errs ++ ["No polynomial fit found for RTO " ++ r.name])]
      simp only [List.length_append, List.length_cons, List.length_nil]
      omega

/-- C9 (amended): in the fit batch, when every region's files exist the run
completes with a persisted output whose total equals the number of regions,
whose successful and failed counts sum to that total, and whose failure
count equals the number of recorded messages (even with zero successes);
in the analysis batch the run hard-fails exactly when no region succeeds,
and every region ends up either a success or a recorded failure message.
(The fit batch aborts on a missing file — see the counterexample — and the
analysis batch persists neither counts nor messages.) -/
theorem c9_batch_error_handling :
    (∀ rs : List FitRegion,
        (∀ r ∈ rs, r.demandFileExists = true ∧ r.tempFileExists = true) →
        ∃ o, fitMain rs = Except.ok o ∧ o.nTotal = rs.length ∧
          o.nSuccessful + o.nFailed = rs.length ∧ o.nFailed = o.errors.length) ∧
    (∀ (y : Int) (d : Nat) (rs : List ClimateRegion),
        climateMain y d rs = Except.error () ↔ (climateLoop rs ([], [])).1 = []) ∧
    (∀ rs : List ClimateRegion,
        (climateLoop rs ([], [])).1.length + (climateLoop rs ([], [])).2.length = rs.length) := by
  refine ⟨?_, ?_, ?_⟩
  · intro rs h
    obtain ⟨a, es, heq, hlen⟩ := fitLoop_ok rs 0 [] h
    unfold fitMain
    rw [heq]
    refine ⟨_, rfl, rfl, ?_, rfl⟩
    simpa using hlen
  · intro y d rs
    simp only [climateMain]
    split_ifs with h
    · simp [List.isEmpty_iff.mp h]
    · have hne : ¬ (climateLoop rs ([], [])).1 = [] :=
        fun hh => h (List.isEmpty_iff.mpr hh)
      simp [hne]
  · intro rs
    simpa using climateLoop_len rs [] []

/-- C9 witness: a one-region fit batch whose fit fails still persists an
output, and a two-region analysis batch with one failure completes. -/
theorem c9_witness :
    (fitMain exFitRegions).isOk = true ∧ (climateMain 2023 4 exClimateRegions).isOk = true := by
  constructor
  · obtain ⟨o, ho, _⟩ := c9_batch_error_handling.1 exFitRegions (by decide)
    rw [ho]
    rfl
  · cases hcm : climateMain 2023 4 exClimateRegions with
    | error u =>
      cases u
      exact absurd ((c9_batch_error_handling.2.1 2023 4 exClimateRegions).mp hcm) (by decide)
    | ok o => rfl

/-- C9 counterexample: in the fit batch a missing demand file for the first
region aborts the whole run — the second (healthy) region is never
processed, no message is recorded and nothing is persisted, contrary to the
claimed per-region catch. -/
theorem c9_counterexample :
    fitMain cxFitRegions = Except.error "Demand file does not exist: caiso" := rfl

lemma head?_eq_getD {l : List ℚ} (h : l ≠ []) : l.head? = some (l.getD 0 0) := by
  cases l with
  | nil => exact absurd rfl h
  | cons a t => rfl

lemma getLast?_eq_getD : ∀ (l : List ℚ), l ≠ [] → l.getLast? = some (l.getD (l.length - 1) 0)
  | [a], _ => rfl
  | a :: b :: t, _ => by
    rw [List.getLast?_cons_cons, getLast?_eq_getD (b :: t) (by simp)]
    congr 1

lemma get?_eq_getD : ∀ (l : List ℚ) (n : Nat), n < l.length → l.get? n = some (l.getD n 0)
  | a :: t, 0, _ => rfl
  | a :: t, Nat.succ n, h => by
    simpa [List.getD_cons_succ] using get?_eq_getD t n (by simpa using h)
  | [], n, h => absurd h (by simp)

lemma chain_getD_lt {l : List ℚ} (hc : List.Chain' (fun a b => a < b) l) :
    ∀ i j, i < j → j < l.length → l.getD i 0 < l.getD j 0 := by
  intro i j hij hj
  induction j with
  | zero => omega
  | succ n ih =>
    have hn : n < l.length := by omega
    have step : l.getD n 0 < l.getD (n + 1) 0 := by
      have hch := List.chain'_iff_get.mp hc n (by omega)
      have h1 : l.getD n 0 = l.get ⟨n, hn⟩ := List.getD_eq_get l 0 hn
      have h2 : l.getD (n + 1) 0 = l.get ⟨n + 1, by omega⟩ := List.getD_eq_get l 0 (by omega)
      rw [h1, h2]
      exact hch
    rcases Nat.lt_succ_iff_lt_or_eq.mp hij with h | h
    · exact lt_trans (ih h hn) step
    · subst h
      exact step

lemma chain_getD_le {l : List ℚ} (hc : List.Chain' (fun a b => a < b) l) :
    ∀ i j, i ≤ j → j < l.length → l.getD i 0 ≤ l.getD j 0 := by
  intro i j hij hj
  rcases Nat.lt_or_ge i j with h | h
  · exact le_of_lt (chain_getD_lt hc i j h hj)
  · have : i = j := le_antisymm hij h
    subst this
    exact le_refl _

lemma exists_seg : ∀ (l : List ℚ), List.Chain' (fun a b => a < b) l → 2 ≤ l.length →
    ∀ x : ℚ, l.getD 0 0 ≤ x → x ≤ l.getD (l.length - 1) 0 →
    ∃ i, i + 1 < l.length ∧ l.getD i 0 ≤ x ∧ x ≤ l.getD (i + 1) 0
  | [], _, h2, _, _, _ => absurd h2 (by simp)
  | [a], _, h2, _, _, _ => absurd h2 (by simp)
  | a :: b :: t, hc, _, x, hlo, hhi => by
    by_cases hxb : x ≤ b
    · exact ⟨0, by simp, hlo, by simpa [List.getD_cons_succ] using hxb⟩
    · push_neg at hxb
      cases t with
      | nil =>
        exfalso
        simp only [List.length_cons, List.length_nil, Nat.add_sub_cancel,
          List.getD_cons_succ, List.getD_cons_zero] at hhi
        exact absurd hhi (not_le.mpr hxb)
      | cons c u =>
        have hc' : List.Chain' (fun p q => p < q) (b :: c :: u) := hc.tail
        have hhi' : x ≤ (b :: c :: u).getD ((b :: c :: u).length - 1) 0 := by
          simpa [List.length_cons, Nat.add_sub_cancel, List.getD_cons_succ] using hhi
        obtain ⟨i, hi1, hi2, hi3⟩ :=
          exists_seg (b :: c :: u) hc' (by simp) x (le_of_lt hxb) hhi'
        refine ⟨i + 1, ?_, by simpa [List.getD_cons_succ] using hi2,
          by simpa [List.getD_cons_succ] using hi3⟩
        simp only [List.length_cons] at hi1 ⊢
        omega

lemma findSeg_isSome {bp : List ℚ} {x : ℚ}
    (h : ∃ i, i + 1 < bp.length ∧ bp.getD i 0 ≤ x ∧ x ≤ bp.getD (i + 1) 0) :
    (findSeg bp x).isSome := by
  obtain ⟨i, hi1, hi2, hi3⟩ := h
  unfold findSeg
  rw [List.find?_isSome]
  refine ⟨i, List.mem_range.mpr (by omega), ?_⟩
  simp only [Bool.and_eq_true, decide_eq_true_eq]
  exact ⟨hi2, hi3⟩

lemma findSeg_spec {bp : List ℚ} {x : ℚ} {j : Nat} (hj : findSeg bp x = some j) :
    j + 1 < bp.length ∧ bp.getD j 0 ≤ x ∧ x ≤ bp.getD (j + 1) 0 := by
  have hj' : (List.range (bp.length - 1)).find?
      (fun i => decide (bp.getD i 0 ≤ x) && decide (x ≤ bp.getD (i + 1) 0)) = some j := hj
  have hp := List.find?_some hj'
  have hm := List.mem_of_find?_eq_some hj'
  have hjlt : j < bp.length - 1 := List.mem_range.mp hm
  simp only [Bool.and_eq_true, decide_eq_true_eq] at hp
  exact ⟨by omega, hp.1, hp.2⟩

/-- C2: piecewise-linear price lookup.  For a curve with equal-length
arrays, at least two strictly ascending breakpoints: below the first
breakpoint the price is the first segment's line clamped at 0; above the
last it is the last segment's line unclamped; in between it is the line of
a segment whose closed interval contains the demand. -/
theorem c2_price_lookup :
    ∀ (p : PwlfParams) (x : ℚ),
      p.slopes.length = p.breakpoints.length →
      p.intercepts.length = p.breakpoints.length →
      2 ≤ p.breakpoints.length →
      List.Chain' (fun a b => a < b) p.breakpoints →
      ((x < p.breakpoints.getD 0 0 →
          get_price p x = some (max 0 (p.slopes.getD 0 0 * x + p.intercepts.getD 0 0))) ∧
       (p.breakpoints.getD (p.breakpoints.length - 1) 0 < x →
          get_price p x = some (p.slopes.getD (p.slopes.length - 1) 0 * x
            + p.intercepts.getD (p.intercepts.length - 1) 0)) ∧
       (p.breakpoints.getD 0 0 ≤ x → x ≤ p.breakpoints.getD (p.breakpoints.length - 1) 0 →
          ∃ i, i + 1 < p.breakpoints.length ∧ p.breakpoints.getD i 0 ≤ x ∧
            x ≤ p.breakpoints.getD (i + 1) 0 ∧
            get_price p x = some (p.slopes.getD i 0 * x + p.intercepts.getD i 0))) := by
  intro p x hsl hil h2 hch
  have hbne : p.breakpoints ≠ [] := by
    intro h
    rw [h] at h2
    simp at h2
  have hsne : p.slopes ≠ [] := by
    intro h
    rw [h] at hsl
    rw [← hsl] at h2
    simp at h2
  have hine : p.intercepts ≠ [] := by
    intro h
    rw [h] at hil
    rw [← hil] at h2
    simp at h2
  have hh := head?_eq_getD hbne
  have hl := getLast?_eq_getD p.breakpoints hbne
  refine ⟨?_, ?_, ?_⟩
  · intro hx
    simp only [get_price, hh, hl]
    rw [if_pos hx, head?_eq_getD hsne, head?_eq_getD hine]
  · intro hx
    have hb0bl : p.breakpoints.getD 0 0 ≤ p.breakpoints.getD (p.breakpoints.length - 1) 0 :=
      chain_getD_le hch 0 (p.breakpoints.length - 1) (Nat.zero_le _) (by omega)
    have hnx : ¬ x < p.breakpoints.getD 0 0 := not_lt.mpr (le_trans hb0bl (le_of_lt hx))
    simp only [get_price, hh, hl]
    rw [if_neg hnx, if_pos hx, getLast?_eq_getD p.slopes hsne, getLast?_eq_getD p.intercepts hine]
  · intro hlo hhi
    obtain ⟨j, hj⟩ := Option.isSome_iff_exists.mp
      (findSeg_isSome (exists_seg p.breakpoints hch h2 x hlo hhi))
    obtain ⟨hj1, hj2, hj3⟩ := findSeg_spec hj
    refine ⟨j, hj1, hj2, hj3, ?_⟩
    simp only [get_price, hh, hl]
    rw [if_neg (not_lt.mpr hlo), if_neg (not_lt.mpr hhi)]
    simp only [hj]
    rw [get?_eq_getD p.slopes j (by omega), get?_eq_getD p.intercepts j (by omega)]

/-- C2 witness: the spec's example curve (breakpoints [10, 50], slopes
[1, 2], intercepts [0, −40]) prices demand 5 (below range) at
max(0, 1·5 + 0) = 5. -/
theorem c2_witness : get_price pEx 5 = some 5 := by
  have h := (c2_price_lookup pEx 5 rfl rfl (by decide)
    (by norm_num [pEx, List.chain'_cons])).1 (by decide)
  rw [h]
  norm_num [pEx]

/-- C10: for at least two strictly ascending breakpoints, the fallback
`return 0` after the segment scan is unreachable: every demand inside the
breakpoint range is found by the scan in a closed segment containing it,
and demand outside the range is handled by one of the two extrapolation
branches. -/
theorem c10_fallback_unreachable :
    ∀ (bp : List ℚ), 2 ≤ bp.length → List.Chain' (fun a b => a < b) bp →
      ∀ x : ℚ,
        (bp.getD 0 0 ≤ x → x ≤ bp.getD (bp.length - 1) 0 →
          ∃ i, findSeg bp x = some i ∧ i + 1 < bp.length ∧
            bp.getD i 0 ≤ x ∧ x ≤ bp.getD (i + 1) 0) ∧
        (x < bp.getD 0 0 ∨ bp.getD (bp.length - 1) 0 < x ∨ (findSeg bp x).isSome = true) := by
  intro bp h2 hch x
  constructor
  · intro hlo hhi
    obtain ⟨j, hj⟩ := Option.isSome_iff_exists.mp
      (findSeg_isSome (exists_seg bp hch h2 x hlo hhi))
    obtain ⟨hj1, hj2, hj3⟩ := findSeg_spec hj
    exact ⟨j, hj, hj1, hj2, hj3⟩
  · rcases lt_or_ge x (bp.getD 0 0) with h | hlo
    · exact Or.inl h
    · rcases le_or_lt x (bp.getD (bp.length - 1) 0) with hhi | h
      · exact Or.inr (Or.inr (findSeg_isSome (exists_seg bp hch h2 x hlo hhi)))
      · exact Or.inr (Or.inl h)

/-- C10 witness: demand 30 inside the range of breakpoints [10, 50] is
found by the segment scan. -/
theorem c10_witness : (findSeg [(10 : ℚ), 50] 30).isSome = true := by
  obtain ⟨i, hi, _⟩ :=
    (c10_fallback_unreachable [(10 : ℚ), 50] (by decide)
      (by norm_num [List.chain'_cons]) 30).1 (by decide) (by decide)
  rw [hi]
  rfl

def cW6 : CoefDict := ⟨5, 0, [], none⟩

def cZ6 : CoefDict := ⟨0, 0, [], none⟩

def sW6 : List (Day × ℚ) := [(⟨2000, 1, 0⟩, 10)]

lemma pctRound_self {b : ℚ} (hb : b ≠ 0) : pctRound b b = PDiv.val 0 := by
  unfold pctRound pctChange
  rw [if_neg hb]
  have h0 : (b - b) / b * 100 = 0 := by
    rw [sub_self, zero_div, zero_mul]
  rw [h0]
  show PDiv.val ((roundHalfEven ((0 : ℚ) * 10) : ℚ) / 10) = PDiv.val 0
  norm_num [roundHalfEven]

lemma monthlyChange_self {f : Nat → Option ℚ} {m : Nat} {b : ℚ} (h : f m = some b) :
    monthlyChange f f m = some 0 := by
  simp only [monthlyChange, h, sub_self]

lemma monthlyPct_self {f : Nat → Option ℚ} {m : Nat} {b : ℚ} (h : f m = some b) :
    monthlyPct f f m = some (pctRound b b) := by
  simp only [monthlyPct, h]

lemma annualChange_self {f : Nat → Option ℚ} {m : Nat} (hm : m ∈ monthsList) {b : ℚ}
    (h : f m = some b) : annualChange f f = some 0 := by
  have hall : ∀ y ∈ monthsList.filterMap (monthlyChange f f), y = 0 := by
    intro y hy
    obtain ⟨m', _, hy'⟩ := List.mem_filterMap.mp hy
    cases hf : f m' with
    | none => simp [monthlyChange, hf] at hy'
    | some v =>
      simp only [monthlyChange, hf, sub_self, Option.some.injEq] at hy'
      exact hy'.symm
  have hmem : (0 : ℚ) ∈ monthsList.filterMap (monthlyChange f f) :=
    List.mem_filterMap.mpr ⟨m, hm, by simp [monthlyChange, h]⟩
  have hne : monthsList.filterMap (monthlyChange f f) ≠ [] := by
    intro hnil
    rw [hnil] at hmem
    simp at hmem
  unfold annualChange listMean
  rw [if_neg (by simpa [List.isEmpty_iff] using hne)]
  rw [List.sum_eq_zero hall, zero_div]

/-- C6 (amended): feeding the same temperature series to both periods of
the Period Aggregator, every month present in the data has absolute change
exactly 0; its percent change is exactly 0 when that month's baseline
figure is nonzero, and NaN (not 0) when the baseline figure is zero; the
annual absolute change is exactly 0 as soon as any month is present, and
the annual percent change behaves like the monthly one. -/
theorem c6_identical_series :
    ∀ (c : CoefDict) (d : Nat) (minT : ℚ) (s : List (Day × ℚ)),
      (∀ m b, periodMonthly c d minT s m = some b →
        monthlyChange (periodMonthly c d minT s) (periodMonthly c d minT s) m = some 0 ∧
        (b ≠ 0 → monthlyPct (periodMonthly c d minT s) (periodMonthly c d minT s) m
            = some (PDiv.val 0)) ∧
        (b = 0 → monthlyPct (periodMonthly c d minT s) (periodMonthly c d minT s) m
            = some PDiv.nan)) ∧
      (∀ m, m ∈ monthsList → ∀ b, periodMonthly c d minT s m = some b →
        annualChange (periodMonthly c d minT s) (periodMonthly c d minT s) = some 0) ∧
      (∀ a, annualOf (periodMonthly c d minT s) = some a →
        (a ≠ 0 → annualPct (periodMonthly c d minT s) (periodMonthly c d minT s)
            = some (PDiv.val 0)) ∧
        (a = 0 → annualPct (periodMonthly c d minT s) (periodMonthly c d minT s)
            = some PDiv.nan)) := by
  intro c d minT s
  refine ⟨?_, ?_, ?_⟩
  · intro m b hm
    refine ⟨monthlyChange_self hm, ?_, ?_⟩
    · intro hb
      rw [monthlyPct_self hm, pctRound_self hb]
    · intro hb
      subst hb
      rw [monthlyPct_self hm]
      rfl
  · intro m hm b hb
    exact annualChange_self hm hb
  · intro a ha
    constructor
    · intro hha
      simp only [annualPct, ha]
      rw [pctRound_self hha]
    · intro hha
      subst hha
      simp only [annualPct, ha]
      rfl

/-- C6 witness: a constant-5 fit over a one-day January series gives a
January figure of 5 with absolute change 0, percent change 0, and annual
change 0 when compared against itself. -/
theorem c6_witness :
    monthlyChange (periodMonthly cW6 1 0 sW6) (periodMonthly cW6 1 0 sW6) 1 = some 0 ∧
    monthlyPct (periodMonthly cW6 1 0 sW6) (periodMonthly cW6 1 0 sW6) 1 = some (PDiv.val 0) ∧
    annualChange (periodMonthly cW6 1 0 sW6) (periodMonthly cW6 1 0 sW6) = some 0 := by
  have h1 : predictSeries cW6 1 0 sW6 = [(⟨2000, 1, 0⟩, 5)] := by
    norm_num [predictSeries, predict_demand_rto_elem, skipSum, lookupC, clipElem,
      isWeekday, cW6, sW6]
  have h2 : monthVals [((⟨2000, 1, 0⟩ : Day), (5 : ℚ))] 2000 1 = [5] := by
    norm_num [monthVals]
  have h4 : List.filterMap
      (fun y => listMean (monthVals [((⟨2000, 1, 0⟩ : Day), (5 : ℚ))] y 1)) [2000] = [5] := by
    norm_num [List.filterMap_cons, h2, listMean]
  have hmap : (List.map (fun p => p.1.year)
      [((⟨2000, 1, 0⟩ : Day), (5 : ℚ))]).dedup = [2000] := by
    simp [List.dedup_cons_of_not_mem]
  have hagg : periodMonthly cW6 1 0 sW6 1 = some 5 := by
    unfold periodMonthly monthAcross
    rw [h1, hmap, h4]
    norm_num [listMean]
  have h := c6_identical_series cW6 1 0 sW6
  exact ⟨(h.1 1 5 hagg).1, (h.1 1 5 hagg).2.1 (by norm_num), h.2.1 1 (by decide) 5 hagg⟩

/-- C6 counterexample: for an all-zero fit compared against itself, the
January baseline figure is 0 and the reported percent change is NaN, not
the claimed exact 0. -/
theorem c6_counterexample :
    periodMonthly cZ6 1 0 sW6 1 = some 0 ∧
    monthlyPct (periodMonthly cZ6 1 0 sW6) (periodMonthly cZ6 1 0 sW6) 1 = some PDiv.nan ∧
    PDiv.nan ≠ PDiv.val 0 := by
  have h1 : predictSeries cZ6 1 0 sW6 = [(⟨2000, 1, 0⟩, 0)] := by
    norm_num [predictSeries, predict_demand_rto_elem, skipSum, lookupC, clipElem,
      isWeekday, cZ6, sW6]
  have h2 : monthVals [((⟨2000, 1, 0⟩ : Day), (0 : ℚ))] 2000 1 = [0] := by
    norm_num [monthVals]
  have h4 : List.filterMap
      (fun y => listMean (monthVals [((⟨2000, 1, 0⟩ : Day), (0 : ℚ))] y 1)) [2000] = [0] := by
    norm_num [List.filterMap_cons, h2, listMean]
  have hmap : (List.map (fun p => p.1.year)
      [((⟨2000, 1, 0⟩ : Day), (0 : ℚ))]).dedup = [2000] := by
    simp [List.dedup_cons_of_not_mem]
  have hagg : periodMonthly cZ6 1 0 sW6 1 = some 0 := by
    unfold periodMonthly monthAcross
    rw [h1, hmap, h4]
    norm_num [listMean]
  refine ⟨hagg, ?_, by decide⟩
  simp only [monthlyPct, hagg]
  rfl

end NEA
